import Mathlib

/-!
Verification of the Kenpom-style adjusted rating solver described in
`content/notebooks/kp.ipynb`.  The notebook states the per-iteration update
equations (its final formulas, cells around lines 136-149) in closed
mathematical form; the surrounding iteration loop, convergence test and
error reporting are described in the specification.  Ratings are modelled
as exact rationals.
-/

namespace Kenpom

/-- A completed game: home team id, away team id, the home and away
points-per-possession (`hppp`, `appp` in the notebook's toy dataset), and
the recency weight `w_i` attached to this game by the weight schedule. -/
structure Game where
  home : Nat
  away : Nat
  hppp : ℚ
  appp : ℚ
  w : ℚ
deriving DecidableEq, Repr

/-- Solver configuration: the league averages `ppp_avg` and `dppp_avg`, the
home-court factor `loc`, the preseason weight `w_pre`, the preseason prior
ratings, the convergence tolerance, the iteration cap, and the identical
constant initial guess used for every team's ratings. -/
structure Config where
  pppAvg : ℚ
  dpppAvg : ℚ
  loc : ℚ
  wPre : ℚ
  oPre : Nat → ℚ
  dPre : Nat → ℚ
  eps : ℚ
  maxIter : Nat
  init : ℚ

/-- A snapshot of every team's (offensive, defensive) rating pair. -/
abbrev Snap : Type := Nat → ℚ × ℚ

/-- The games in which team `j` took part. -/
def gamesOf (games : List Game) (j : Nat) : List Game :=
  games.filter (fun g => g.home == j || g.away == j)

/-- Points per possession scored by team `j` in game `g` (`ppp^j_i`). -/
def scored (j : Nat) (g : Game) : ℚ :=
  if g.home = j then g.hppp else g.appp

/-- Points per possession allowed by team `j` in game `g` (`dppp^j_i`). -/
def allowed (j : Nat) (g : Game) : ℚ :=
  if g.home = j then g.appp else g.hppp

/-- The opponent of team `j` in game `g`. -/
def opponent (j : Nat) (g : Game) : Nat :=
  if g.home = j then g.away else g.home

/-- One summand of the notebook's final offensive update formula:
`ppp^j_i * (ppp_avg / d~_i) * (1/loc) * w_i`, where `d~_i` is the
opponent's defensive rating in the previous snapshot.  The factor `1/loc`
is applied to every game, exactly as the notebook's formula writes it. -/
def oTerm (cfg : Config) (d : Nat → ℚ) (j : Nat) (g : Game) : ℚ :=
  scored j g * (cfg.pppAvg / d (opponent j g)) * (1 / cfg.loc) * g.w

/-- One summand of the notebook's final defensive update formula:
`dppp^j_i * (dppp_avg / o~_i) * loc * w_i`, where `o~_i` is the opponent's
offensive rating in the previous snapshot.  The factor `loc` is applied to
every game, exactly as the notebook's formula writes it. -/
def dTerm (cfg : Config) (o : Nat → ℚ) (j : Nat) (g : Game) : ℚ :=
  allowed j g * (cfg.dpppAvg / o (opponent j g)) * cfg.loc * g.w

/-- The notebook's final offensive update equation:
`o~_j = (1/N_j) * Σ_i [ppp^j_i (ppp_avg / d~_i) (1/loc) w_i] + w_pre * o~_pre_j`. -/
def nextO (games : List Game) (cfg : Config) (d : Nat → ℚ) (j : Nat) : ℚ :=
  ((gamesOf games j).map (oTerm cfg d j)).sum / ((gamesOf games j).length : ℚ)
    + cfg.wPre * cfg.oPre j

/-- The notebook's final defensive update equation:
`d~_j = (1/N_j) * Σ_i [dppp^j_i (dppp_avg / o~_i) loc w_i] + w_pre * d~_pre_j`. -/
def nextD (games : List Game) (cfg : Config) (o : Nat → ℚ) (j : Nat) : ℚ :=
  ((gamesOf games j).map (dTerm cfg o j)).sum / ((gamesOf games j).length : ℚ)
    + cfg.wPre * cfg.dPre j

/-- One synchronous iteration of the fixed-point map: every team's next
pair is computed from the previous snapshot only (the offensive update
reads only the defensive components, the defensive update only the
offensive components). -/
def step (games : List Game) (cfg : Config) (s : Snap) : Snap :=
  fun j =>
    (nextO games cfg (fun k => (s k).2) j, nextD games cfg (fun k => (s k).1) j)

/-- The snapshot after `t` synchronous iterations from `s0`. -/
def iterSnap (games : List Game) (cfg : Config) (s0 : Snap) (t : Nat) : Snap :=
  (step games cfg)^[t] s0

lemma iterSnap_zero (games : List Game) (cfg : Config) (s0 : Snap) :
    iterSnap games cfg s0 0 = s0 := rfl

lemma iterSnap_succ (games : List Game) (cfg : Config) (s0 : Snap) (t : Nat) :
    iterSnap games cfg s0 (t + 1) = step games cfg (iterSnap games cfg s0 t) := by
  unfold iterSnap
  exact Function.iterate_succ_apply' (step games cfg) t s0

/-- The absolute change of team `j`'s two ratings between snapshots. -/
def teamDelta (s s2 : Snap) (j : Nat) : ℚ :=
  max |(s2 j).1 - (s j).1| |(s2 j).2 - (s j).2|

/-- Maximum absolute change across all listed teams and both ratings. -/
def maxDelta (teams : List Nat) (s s2 : Snap) : ℚ :=
  (teams.map (teamDelta s s2)).foldr max 0

/-- Modelled from the spec: the divisor check of the solver loop, whose
code is not in the repository.  Team `j`'s update divides by each
opponent's defensive rating (offensive update) and offensive rating
(defensive update); the check demands all those divisors be strictly
positive, failing when one is zero or has changed sign. -/
def divisorsOKfor (games : List Game) (s : Snap) (j : Nat) : Bool :=
  (gamesOf games j).all (fun g =>
    decide (0 < (s (opponent j g)).2) && decide (0 < (s (opponent j g)).1))

/-- Modelled from the spec: the first team (if any) whose update would use
a degenerate divisor in snapshot `s`. -/
def findDegenerate (games : List Game) (teams : List Nat) (s : Snap) : Option Nat :=
  teams.find? (fun j => ! divisorsOKfor games s j)

/-- Convergence status of a solver run: converged after `iters` iterations,
or not converged with the final max-delta. -/
inductive Status where
  | converged (iters : Nat)
  | nonConverged (finalDelta : ℚ)
deriving DecidableEq, Repr

/-- Modelled from the spec: the fatal error kinds of the solver, whose code
is not in the repository; only the degenerate-divisor error is reachable
inside the iteration, and it reports the offending team and iteration. -/
inductive SolveError where
  | degenerateDivisor (team : Nat) (iter : Nat)
deriving DecidableEq, Repr

/-- Modelled from the spec: the iteration loop of the solver, whose code is
not in the repository.  `fuel` is the number of iterations still allowed,
`t` the number already performed.  Each round checks the divisors of the
current snapshot, computes the next snapshot synchronously, stops with
`converged` as soon as the max-delta falls below the tolerance, and stops
with `nonConverged` (carrying the final max-delta and last snapshot) when
the iteration cap is exhausted first. -/
def solveAux (games : List Game) (cfg : Config) (teams : List Nat) :
    Nat → Nat → Snap → Except SolveError (Status × Snap)
  | 0, _, s => Except.ok (Status.nonConverged 0, s)
  | fuel + 1, t, s =>
    match findDegenerate games teams s with
    | some j => Except.error (SolveError.degenerateDivisor j t)
    | none =>
      if maxDelta teams s (step games cfg s) < cfg.eps then
        Except.ok (Status.converged (t + 1), step games cfg s)
      else if fuel = 0 then
        Except.ok (Status.nonConverged (maxDelta teams s (step games cfg s)),
          step games cfg s)
      else
        solveAux games cfg teams fuel (t + 1) (step games cfg s)

/-- Teams of the roster that have at least one game; only these take part
in the iteration. -/
def iterTeams (games : List Game) (roster : List Nat) : List Nat :=
  roster.filter (fun j => ! (gamesOf games j).isEmpty)

/-- The identical constant initial guess for every team. -/
def initSnap (cfg : Config) : Snap := fun _ => (cfg.init, cfg.init)

/-- Modelled from the spec: the solver entry point, whose code is not in
the repository.  It runs the loop for at most `maxIter` iterations starting
from the constant initial snapshot. -/
def solve (games : List Game) (cfg : Config) (roster : List Nat) :
    Except SolveError (Status × Snap) :=
  solveAux games cfg (iterTeams games roster) cfg.maxIter 0 (initSnap cfg)

/-- Modelled from the spec: per-team result extraction; a team with zero
games never enters the iteration and its output pair is exactly its
preseason prior. -/
def ratingOf (games : List Game) (cfg : Config) (s : Snap) (j : Nat) : ℚ × ℚ :=
  if (gamesOf games j).isEmpty then (cfg.oPre j, cfg.dPre j) else s j

/-- Modelled from the spec: the full solver output, a status together with
the per-team final rating map (zero-game teams mapped to their priors). -/
def solverOutput (games : List Game) (cfg : Config) (roster : List Nat) :
    Except SolveError (Status × (Nat → ℚ × ℚ)) :=
  (solve games cfg roster).map (fun p => (p.1, fun j => ratingOf games cfg p.2 j))

/-- The max-delta between consecutive iterates, `δ(t)` in the convergence
test. -/
def delta (games : List Game) (cfg : Config) (teams : List Nat) (s0 : Snap)
    (t : Nat) : ℚ :=
  maxDelta teams (iterSnap games cfg s0 t) (iterSnap games cfg s0 (t + 1))

lemma solveAux_succ_degenerate (games : List Game) (cfg : Config) (teams : List Nat)
    (fuel t : Nat) (s : Snap) (j : Nat)
    (h : findDegenerate games teams s = some j) :
    solveAux games cfg teams (fuel + 1) t s
      = Except.error (SolveError.degenerateDivisor j t) := by
  unfold solveAux
  rw [h]

lemma solveAux_succ_converged (games : List Game) (cfg : Config) (teams : List Nat)
    (fuel t : Nat) (s : Snap)
    (h : findDegenerate games teams s = none)
    (hd : maxDelta teams s (step games cfg s) < cfg.eps) :
    solveAux games cfg teams (fuel + 1) t s
      = Except.ok (Status.converged (t + 1), step games cfg s) := by
  unfold solveAux
  rw [h]
  simp only [if_pos hd]

lemma solveAux_succ_exhaust (games : List Game) (cfg : Config) (teams : List Nat)
    (t : Nat) (s : Snap)
    (h : findDegenerate games teams s = none)
    (hd : ¬ maxDelta teams s (step games cfg s) < cfg.eps) :
    solveAux games cfg teams 1 t s
      = Except.ok (Status.nonConverged (maxDelta teams s (step games cfg s)),
          step games cfg s) := by
  conv_lhs => unfold solveAux
  rw [h]
  simp [if_neg hd]

lemma solveAux_succ_next (games : List Game) (cfg : Config) (teams : List Nat)
    (fuel t : Nat) (s : Snap)
    (h : findDegenerate games teams s = none)
    (hd : ¬ maxDelta teams s (step games cfg s) < cfg.eps)
    (hfuel : fuel ≠ 0) :
    solveAux games cfg teams (fuel + 1) t s
      = solveAux games cfg teams fuel (t + 1) (step games cfg s) := by
  conv_lhs => unfold solveAux
  rw [h]
  simp only [if_neg hd, if_neg hfuel]

lemma solveAux_advance (games : List Game) (cfg : Config) (teams : List Nat)
    (s0 : Snap) :
    ∀ r K : Nat, r < K →
    (∀ t, t < r → findDegenerate games teams (iterSnap games cfg s0 t) = none) →
    (∀ t, t < r → ¬ delta games cfg teams s0 t < cfg.eps) →
    solveAux games cfg teams K 0 s0
      = solveAux games cfg teams (K - r) r (iterSnap games cfg s0 r) := by
  intro r
  induction r with
  | zero =>
    intro K _ _ _
    simp [iterSnap_zero]
  | succ r ih =>
    intro K hr hdiv hdel
    have hrK : r < K := Nat.lt_of_succ_lt hr
    have base := ih K hrK (fun t ht => hdiv t (Nat.lt_succ_of_lt ht))
      (fun t ht => hdel t (Nat.lt_succ_of_lt ht))
    have hpos : 0 < K - r := Nat.sub_pos_of_lt hrK
    have hfuel : K - r - 1 ≠ 0 := by omega
    have hKr : K - r = (K - r - 1) + 1 := by omega
    have hstepeq : iterSnap games cfg s0 (r + 1) = step games cfg (iterSnap games cfg s0 r) :=
      iterSnap_succ games cfg s0 r
    have hdel' : ¬ maxDelta teams (iterSnap games cfg s0 r)
        (step games cfg (iterSnap games cfg s0 r)) < cfg.eps := by
      have := hdel r (Nat.lt_succ_self r)
      unfold delta at this
      rw [hstepeq] at this
      exact this
    rw [base, hKr, solveAux_succ_next games cfg teams (K - r - 1) r
      (iterSnap games cfg s0 r) (hdiv r (Nat.lt_succ_self r)) hdel' hfuel]
    rw [← hstepeq]
    have h2 : K - (r + 1) = K - r - 1 := by omega
    rw [h2]

lemma solve_trace_converged (games : List Game) (cfg : Config) (teams : List Nat)
    (s0 : Snap) (r K : Nat) (hr : r < K)
    (hdiv : ∀ t, t ≤ r → findDegenerate games teams (iterSnap games cfg s0 t) = none)
    (hbefore : ∀ t, t < r → ¬ delta games cfg teams s0 t < cfg.eps)
    (hconv : delta games cfg teams s0 r < cfg.eps) :
    solveAux games cfg teams K 0 s0
      = Except.ok (Status.converged (r + 1), iterSnap games cfg s0 (r + 1)) := by
  have base := solveAux_advance games cfg teams s0 r K hr
    (fun t ht => hdiv t (Nat.le_of_lt ht)) hbefore
  have hKr : K - r = (K - r - 1) + 1 := by omega
  have hstepeq : iterSnap games cfg s0 (r + 1) = step games cfg (iterSnap games cfg s0 r) :=
    iterSnap_succ games cfg s0 r
  have hconv' : maxDelta teams (iterSnap games cfg s0 r)
      (step games cfg (iterSnap games cfg s0 r)) < cfg.eps := by
    unfold delta at hconv
    rw [hstepeq] at hconv
    exact hconv
  rw [base, hKr, solveAux_succ_converged games cfg teams (K - r - 1) r
    (iterSnap games cfg s0 r) (hdiv r (Nat.le_refl r)) hconv', ← hstepeq]

lemma solve_trace_nonConverged (games : List Game) (cfg : Config) (teams : List Nat)
    (s0 : Snap) (K : Nat) (hK : 1 ≤ K)
    (hdiv : ∀ t, t < K → findDegenerate games teams (iterSnap games cfg s0 t) = none)
    (hnever : ∀ t, t < K → ¬ delta games cfg teams s0 t < cfg.eps) :
    solveAux games cfg teams K 0 s0
      = Except.ok (Status.nonConverged (delta games cfg teams s0 (K - 1)),
          iterSnap games cfg s0 K) := by
  have hr : K - 1 < K := by omega
  have base := solveAux_advance games cfg teams s0 (K - 1) K hr
    (fun t ht => hdiv t (Nat.lt_of_lt_of_le ht (Nat.le_of_lt hr)))
    (fun t ht => hnever t (Nat.lt_of_lt_of_le ht (Nat.le_of_lt hr)))
  have hone : K - (K - 1) = 1 := by omega
  have hstepeq : iterSnap games cfg s0 (K - 1 + 1)
      = step games cfg (iterSnap games cfg s0 (K - 1)) :=
    iterSnap_succ games cfg s0 (K - 1)
  have hnever' : ¬ maxDelta teams (iterSnap games cfg s0 (K - 1))
      (step games cfg (iterSnap games cfg s0 (K - 1))) < cfg.eps := by
    have := hnever (K - 1) hr
    unfold delta at this
    rw [hstepeq] at this
    exact this
  rw [base, hone, solveAux_succ_exhaust games cfg teams (K - 1)
    (iterSnap games cfg s0 (K - 1)) (hdiv (K - 1) hr) hnever']
  have hK1 : K - 1 + 1 = K := by omega
  have hlast : iterSnap games cfg s0 K
      = step games cfg (iterSnap games cfg s0 (K - 1)) := by
    conv_lhs => rw [← hK1]
    exact hstepeq
  unfold delta
  rw [hstepeq, hlast]

lemma solve_trace_degenerate (games : List Game) (cfg : Config) (teams : List Nat)
    (s0 : Snap) (τ K : Nat) (j : Nat) (hτ : τ < K)
    (hdiv : ∀ t, t < τ → findDegenerate games teams (iterSnap games cfg s0 t) = none)
    (hbefore : ∀ t, t < τ → ¬ delta games cfg teams s0 t < cfg.eps)
    (hdeg : findDegenerate games teams (iterSnap games cfg s0 τ) = some j) :
    solveAux games cfg teams K 0 s0
      = Except.error (SolveError.degenerateDivisor j τ) := by
  have base := solveAux_advance games cfg teams s0 τ K hτ hdiv hbefore
  have hKr : K - τ = (K - τ - 1) + 1 := by omega
  rw [base, hKr, solveAux_succ_degenerate games cfg teams (K - τ - 1) τ
    (iterSnap games cfg s0 τ) j hdeg]

lemma maxDelta_eq_zero (teams : List Nat) (s s2 : Snap)
    (h : ∀ j ∈ teams, teamDelta s s2 j = 0) : maxDelta teams s s2 = 0 := by
  induction teams with
  | nil => rfl
  | cons a l ih =>
    unfold maxDelta
    simp only [List.map_cons, List.foldr_cons]
    rw [h a (List.mem_cons_self a l)]
    have := ih (fun j hj => h j (List.mem_cons_of_mem a hj))
    unfold maxDelta at this
    rw [this]
    exact max_self 0

/-- A single-game fixture: team 0 at home against team 1, both sides at one
point per possession, unit weight. -/
def exGame : Game := ⟨0, 1, 1, 1, 1⟩

def exGames : List Game := [exGame]

/-- A fixture configuration: unit league averages, no home-court effect,
no preseason blending, tolerance 10, cap 3, initial guess 1. -/
def exCfg : Config := ⟨1, 1, 1, 0, fun _ => 1, fun _ => 1, 10, 3, 1⟩

def sOne : Snap := fun _ => (1, 1)

def sTwo : Snap := fun _ => (2, 1)

/-- C1: for every team with at least one game, iteration t+1 computes the
offensive rating as the sum over the team's games of scored
points-per-possession times `ppp_avg` over the opponent's defensive rating
from the iteration-t snapshot, times the location factor and the game
weight, divided by the game count, plus `w_pre` times the offensive prior;
and the defensive rating symmetrically from the iteration-t offensive
ratings.  The whole iteration reads only the previous iteration's complete
snapshot. -/
theorem kp_update_is_synchronous_formula (games : List Game) (cfg : Config)
    (s0 : Snap) (t j : Nat) (_h : 1 ≤ (gamesOf games j).length) :
    (iterSnap games cfg s0 (t + 1) j).1
      = ((gamesOf games j).map (fun g =>
          scored j g * (cfg.pppAvg / (iterSnap games cfg s0 t (opponent j g)).2)
            * (1 / cfg.loc) * g.w)).sum / ((gamesOf games j).length : ℚ)
        + cfg.wPre * cfg.oPre j
    ∧ (iterSnap games cfg s0 (t + 1) j).2
      = ((gamesOf games j).map (fun g =>
          allowed j g * (cfg.dpppAvg / (iterSnap games cfg s0 t (opponent j g)).1)
            * cfg.loc * g.w)).sum / ((gamesOf games j).length : ℚ)
        + cfg.wPre * cfg.dPre j := by
  rw [iterSnap_succ]
  exact ⟨rfl, rfl⟩

/-- Witness for C1 at the one-game fixture. -/
theorem kp_update_is_synchronous_formula_witness :
    (iterSnap exGames exCfg sOne 1 0).1
      = ((gamesOf exGames 0).map (fun g =>
          scored 0 g * (exCfg.pppAvg / (iterSnap exGames exCfg sOne 0 (opponent 0 g)).2)
            * (1 / exCfg.loc) * g.w)).sum / ((gamesOf exGames 0).length : ℚ)
        + exCfg.wPre * exCfg.oPre 0 :=
  (kp_update_is_synchronous_formula exGames exCfg sOne 0 0 (by decide)).1

/-- C9: one iteration decouples the two rating families; the next offensive
ratings depend on the previous snapshot only through its defensive
components, and the next defensive ratings only through its offensive
components. -/
theorem kp_updates_decoupled (games : List Game) (cfg : Config) (s1 s2 : Snap) :
    ((∀ k, (s1 k).2 = (s2 k).2) →
      ∀ j, (step games cfg s1 j).1 = (step games cfg s2 j).1)
    ∧ ((∀ k, (s1 k).1 = (s2 k).1) →
      ∀ j, (step games cfg s1 j).2 = (step games cfg s2 j).2) := by
  constructor
  · intro h j
    show nextO games cfg (fun k => (s1 k).2) j = nextO games cfg (fun k => (s2 k).2) j
    have hf : (fun k => (s1 k).2) = (fun k => (s2 k).2) := funext h
    rw [hf]
  · intro h j
    show nextD games cfg (fun k => (s1 k).1) j = nextD games cfg (fun k => (s2 k).1) j
    have hf : (fun k => (s1 k).1) = (fun k => (s2 k).1) := funext h
    rw [hf]

/-- Witness for C9: two snapshots that differ in every offensive rating but
agree on defense produce the same next offensive rating. -/
theorem kp_updates_decoupled_witness :
    (step exGames exCfg sOne 0).1 = (step exGames exCfg sTwo 0).1 :=
  (kp_updates_decoupled exGames exCfg sOne sTwo).1 (fun _ => rfl) 0

/-- C8: a snapshot that exactly satisfies the update equations is a fixed
point; one further iteration changes no listed team's rating at all (so in
particular by no more than any tolerance). -/
theorem kp_fixed_point_idempotent (games : List Game) (cfg : Config)
    (teams : List Nat) (s : Snap)
    (h : ∀ j ∈ teams,
      (s j).1
        = ((gamesOf games j).map (fun g =>
            scored j g * (cfg.pppAvg / (s (opponent j g)).2)
              * (1 / cfg.loc) * g.w)).sum / ((gamesOf games j).length : ℚ)
          + cfg.wPre * cfg.oPre j
      ∧ (s j).2
        = ((gamesOf games j).map (fun g =>
            allowed j g * (cfg.dpppAvg / (s (opponent j g)).1)
              * cfg.loc * g.w)).sum / ((gamesOf games j).length : ℚ)
          + cfg.wPre * cfg.dPre j) :
    maxDelta teams s (step games cfg s) = 0
    ∧ ∀ j ∈ teams, teamDelta s (step games cfg s) j = 0 := by
  have hfix : ∀ j ∈ teams, step games cfg s j = s j := by
    intro j hj
    have hj' := h j hj
    apply Prod.ext
    · exact (hj'.1).symm
    · exact (hj'.2).symm
  have hdelta : ∀ j ∈ teams, teamDelta s (step games cfg s) j = 0 := by
    intro j hj
    unfold teamDelta
    rw [hfix j hj]
    simp
  exact ⟨maxDelta_eq_zero teams s (step games cfg s) hdelta, hdelta⟩

/-- Witness for C8: the all-ones snapshot is a fixed point of the one-game
fixture and its one-step max-delta is zero. -/
theorem kp_fixed_point_idempotent_witness :
    maxDelta [0, 1] sOne (step exGames exCfg sOne) = 0 :=
  (kp_fixed_point_idempotent exGames exCfg [0, 1] sOne (by
    intro j hj
    fin_cases hj <;> constructor <;>
      norm_num [sOne, exCfg, exGames, exGame, gamesOf, scored, allowed,
        opponent])).1

lemma step_preserves_pos (games : List Game) (cfg : Config) (s : Snap)
    (hg : ∀ g ∈ games, 0 < g.hppp ∧ 0 < g.appp ∧ 0 < g.w)
    (hppp : 0 < cfg.pppAvg) (hdppp : 0 < cfg.dpppAvg) (hloc : 0 < cfg.loc)
    (hw : 0 < cfg.wPre) (hoPre : ∀ j, 0 < cfg.oPre j)
    (hdPre : ∀ j, 0 < cfg.dPre j)
    (hs : ∀ k, 0 < (s k).1 ∧ 0 < (s k).2) :
    ∀ j, 0 < (step games cfg s j).1 ∧ 0 < (step games cfg s j).2 := by
  intro j
  constructor
  · show 0 < nextO games cfg (fun k => (s k).2) j
    unfold nextO
    apply add_pos_of_nonneg_of_pos
    · apply div_nonneg
      · apply List.sum_nonneg
        intro x hx
        rcases List.mem_map.mp hx with ⟨g, hgmem, rfl⟩
        have hgin : g ∈ games := List.mem_of_mem_filter hgmem
        rcases hg g hgin with ⟨h1, h2, h3⟩
        have hsc : 0 ≤ scored j g := by
          unfold scored
          split
          · exact le_of_lt h1
          · exact le_of_lt h2
        unfold oTerm
        have hdiv : 0 ≤ cfg.pppAvg / (s (opponent j g)).2 :=
          div_nonneg (le_of_lt hppp) (le_of_lt (hs (opponent j g)).2)
        have hlocinv : 0 ≤ 1 / cfg.loc :=
          div_nonneg zero_le_one (le_of_lt hloc)
        exact mul_nonneg (mul_nonneg (mul_nonneg hsc hdiv) hlocinv) (le_of_lt h3)
      · exact Nat.cast_nonneg _
    · exact mul_pos hw (hoPre j)
  · show 0 < nextD games cfg (fun k => (s k).1) j
    unfold nextD
    apply add_pos_of_nonneg_of_pos
    · apply div_nonneg
      · apply List.sum_nonneg
        intro x hx
        rcases List.mem_map.mp hx with ⟨g, hgmem, rfl⟩
        have hgin : g ∈ games := List.mem_of_mem_filter hgmem
        rcases hg g hgin with ⟨h1, h2, h3⟩
        have hal : 0 ≤ allowed j g := by
          unfold allowed
          split
          · exact le_of_lt h2
          · exact le_of_lt h1
        unfold dTerm
        have hdiv : 0 ≤ cfg.dpppAvg / (s (opponent j g)).1 :=
          div_nonneg (le_of_lt hdppp) (le_of_lt (hs (opponent j g)).1)
        exact mul_nonneg (mul_nonneg (mul_nonneg hal hdiv) (le_of_lt hloc))
          (le_of_lt h3)
      · exact Nat.cast_nonneg _
    · exact mul_pos hw (hdPre j)

lemma iterSnap_pos (games : List Game) (cfg : Config) (s : Snap)
    (hg : ∀ g ∈ games, 0 < g.hppp ∧ 0 < g.appp ∧ 0 < g.w)
    (hppp : 0 < cfg.pppAvg) (hdppp : 0 < cfg.dpppAvg) (hloc : 0 < cfg.loc)
    (hw : 0 < cfg.wPre) (hoPre : ∀ j, 0 < cfg.oPre j)
    (hdPre : ∀ j, 0 < cfg.dPre j)
    (hs : ∀ k, 0 < (s k).1 ∧ 0 < (s k).2) :
    ∀ t, ∀ k,
      0 < (iterSnap games cfg s t k).1 ∧ 0 < (iterSnap games cfg s t k).2 := by
  intro t
  induction t with
  | zero => exact hs
  | succ t ih =>
    rw [iterSnap_succ]
    exact step_preserves_pos games cfg (iterSnap games cfg s t) hg hppp hdppp
      hloc hw hoPre hdPre ih

lemma findDegenerate_none_of_pos (games : List Game) (teams : List Nat)
    (s : Snap) (h : ∀ k, 0 < (s k).1 ∧ 0 < (s k).2) :
    findDegenerate games teams s = none := by
  unfold findDegenerate
  rw [List.find?_eq_none]
  intro j _hj
  have hok : divisorsOKfor games s j = true := by
    unfold divisorsOKfor
    rw [List.all_eq_true]
    intro g _hgmem
    rw [Bool.and_eq_true, decide_eq_true_eq, decide_eq_true_eq]
    exact ⟨(h _).2, (h _).1⟩
  simp [hok]

/-- C10: under strictly positive inputs (game ppp values, weights,
preseason weight and priors, league averages, home-court factor) and a
strictly positive starting snapshot, every iterate of the update map is
strictly positive in both ratings of every team, and therefore the
degenerate-divisor check never fires at any iteration. -/
theorem kp_positivity_preserved (games : List Game) (cfg : Config) (s : Snap)
    (hg : ∀ g ∈ games, 0 < g.hppp ∧ 0 < g.appp ∧ 0 < g.w)
    (hppp : 0 < cfg.pppAvg) (hdppp : 0 < cfg.dpppAvg) (hloc : 0 < cfg.loc)
    (hw : 0 < cfg.wPre) (hoPre : ∀ j, 0 < cfg.oPre j)
    (hdPre : ∀ j, 0 < cfg.dPre j)
    (hs : ∀ k, 0 < (s k).1 ∧ 0 < (s k).2) :
    ∀ t, (∀ k, 0 < (iterSnap games cfg s t k).1 ∧ 0 < (iterSnap games cfg s t k).2)
      ∧ ∀ teams : List Nat,
          findDegenerate games teams (iterSnap games cfg s t) = none := by
  intro t
  have main := iterSnap_pos games cfg s hg hppp hdppp hloc hw hoPre hdPre hs t
  exact ⟨main, fun teams => findDegenerate_none_of_pos games teams _ main⟩

/-- A fixture configuration with a strictly positive preseason weight. -/
def pCfg : Config := ⟨1, 1, 1, 1, fun _ => 1, fun _ => 1, 10, 3, 1⟩

/-- Witness for C10 at the one-game fixture with positive preseason
weight, two iterations in. -/
theorem kp_positivity_preserved_witness :
    0 < (iterSnap exGames pCfg sOne 2 0).1 :=
  ((kp_positivity_preserved exGames pCfg sOne
    (by
      intro g hgm
      simp only [exGames, List.mem_singleton] at hgm
      subst hgm
      norm_num [exGame])
    (by norm_num [pCfg]) (by norm_num [pCfg]) (by norm_num [pCfg])
    (by norm_num [pCfg]) (fun j => by norm_num [pCfg])
    (fun j => by norm_num [pCfg])
    (fun k => by norm_num [sOne])) 2).1 0 |>.1

/-- C2: the loop (a total function of its fuel) stops exactly at the first
of the two events: it returns `converged` as soon as the max absolute
change over all iterating teams and both ratings falls below the
tolerance, and `nonConverged` when the iteration cap elapses first; no
other count enters the termination condition. -/
theorem kp_loop_stops_at_first_event (games : List Game) (cfg : Config)
    (roster : List Nat) (hK : 1 ≤ cfg.maxIter)
    (hdivAll : ∀ t, t < cfg.maxIter →
      findDegenerate games (iterTeams games roster)
        (iterSnap games cfg (initSnap cfg) t) = none) :
    (∀ r, r < cfg.maxIter →
      delta games cfg (iterTeams games roster) (initSnap cfg) r < cfg.eps →
      (∀ t, t < r →
        ¬ delta games cfg (iterTeams games roster) (initSnap cfg) t < cfg.eps) →
      solve games cfg roster
        = Except.ok (Status.converged (r + 1),
            iterSnap games cfg (initSnap cfg) (r + 1)))
    ∧ ((∀ t, t < cfg.maxIter →
        ¬ delta games cfg (iterTeams games roster) (initSnap cfg) t < cfg.eps) →
      solve games cfg roster
        = Except.ok (Status.nonConverged
            (delta games cfg (iterTeams games roster) (initSnap cfg)
              (cfg.maxIter - 1)),
            iterSnap games cfg (initSnap cfg) cfg.maxIter)) := by
  constructor
  · intro r hr hconv hbefore
    unfold solve
    exact solve_trace_converged games cfg (iterTeams games roster)
      (initSnap cfg) r cfg.maxIter hr
      (fun t ht => hdivAll t (lt_of_le_of_lt ht hr)) hbefore hconv
  · intro hnever
    unfold solve
    exact solve_trace_nonConverged games cfg (iterTeams games roster)
      (initSnap cfg) cfg.maxIter hK hdivAll hnever

/-- Witness for C2: on the one-game fixture with positive preseason weight
the loop converges at the very first comparison. -/
theorem kp_loop_stops_at_first_event_witness :
    solve exGames pCfg [0, 1]
      = Except.ok (Status.converged 1, iterSnap exGames pCfg (initSnap pCfg) 1) := by
  have hpos := iterSnap_pos exGames pCfg (initSnap pCfg)
    (by
      intro g hgm
      simp only [exGames, List.mem_singleton] at hgm
      subst hgm
      norm_num [exGame])
    (by norm_num [pCfg]) (by norm_num [pCfg]) (by norm_num [pCfg])
    (by norm_num [pCfg]) (fun j => by norm_num [pCfg])
    (fun j => by norm_num [pCfg]) (fun k => by norm_num [initSnap, pCfg])
  exact (kp_loop_stops_at_first_event exGames pCfg [0, 1]
    (by norm_num [pCfg])
    (fun t _ => findDegenerate_none_of_pos exGames _ _ (hpos t))).1 0
    (by norm_num [pCfg])
    (by
      simp [delta, iterSnap_succ, iterSnap_zero, step, maxDelta, teamDelta,
        nextO, nextD, oTerm, dTerm, gamesOf, scored, allowed, opponent,
        exGames, exGame, pCfg, initSnap, iterTeams])
    (fun t ht => absurd ht (Nat.not_lt_zero t))

/-- C3: a team with zero recorded games never enters the iteration, and its
output pair is exactly its preseason prior, whatever the tolerance,
iteration cap and weights. -/
theorem kp_zero_game_team_keeps_prior (games : List Game) (cfg : Config)
    (roster : List Nat) (j : Nat) (h : gamesOf games j = []) :
    (∀ st out, solverOutput games cfg roster = Except.ok (st, out) →
      out j = (cfg.oPre j, cfg.dPre j))
    ∧ j ∉ iterTeams games roster := by
  constructor
  · intro st out hok
    unfold solverOutput at hok
    cases hsolve : solve games cfg roster with
    | error e =>
      rw [hsolve] at hok
      exact absurd hok (by simp [Except.map])
    | ok p =>
      rw [hsolve] at hok
      simp only [Except.map, Except.ok.injEq, Prod.mk.injEq] at hok
      rcases hok with ⟨_, hout⟩
      rw [← hout]
      show ratingOf games cfg p.2 j = (cfg.oPre j, cfg.dPre j)
      unfold ratingOf
      rw [h]
      rfl
  · intro hmem
    unfold iterTeams at hmem
    rw [List.mem_filter] at hmem
    rcases hmem with ⟨_, hfilt⟩
    rw [h] at hfilt
    simp at hfilt

/-- Witness for C3: team 2 plays no games; its output is its prior. -/
theorem kp_zero_game_team_keeps_prior_witness :
    ratingOf exGames pCfg (iterSnap exGames pCfg (initSnap pCfg) 1) 2
      = (pCfg.oPre 2, pCfg.dPre 2) := by
  have hpos := iterSnap_pos exGames pCfg (initSnap pCfg)
    (by
      intro g hgm
      simp only [exGames, List.mem_singleton] at hgm
      subst hgm
      norm_num [exGame])
    (by norm_num [pCfg]) (by norm_num [pCfg]) (by norm_num [pCfg])
    (by norm_num [pCfg]) (fun j => by norm_num [pCfg])
    (fun j => by norm_num [pCfg]) (fun k => by norm_num [initSnap, pCfg])
  have hsolve : solve exGames pCfg [0, 1, 2]
      = Except.ok (Status.converged 1, iterSnap exGames pCfg (initSnap pCfg) 1) := by
    unfold solve
    exact solve_trace_converged exGames pCfg (iterTeams exGames [0, 1, 2])
      (initSnap pCfg) 0 pCfg.maxIter (by norm_num [pCfg])
      (fun t _ => findDegenerate_none_of_pos exGames _ _ (hpos t))
      (fun t ht => absurd ht (Nat.not_lt_zero t))
      (by
        simp [delta, iterSnap_succ, iterSnap_zero, step, maxDelta, teamDelta,
          nextO, nextD, oTerm, dTerm, gamesOf, scored, allowed, opponent,
          exGames, exGame, pCfg, initSnap, iterTeams])
  have hout : solverOutput exGames pCfg [0, 1, 2]
      = Except.ok (Status.converged 1,
          fun j => ratingOf exGames pCfg (iterSnap exGames pCfg (initSnap pCfg) 1) j) := by
    unfold solverOutput
    rw [hsolve]
    rfl
  exact (kp_zero_game_team_keeps_prior exGames pCfg [0, 1, 2] 2 rfl).1
    (Status.converged 1) _ hout

/-- A fixture configuration that cannot converge: zero tolerance, cap 1. -/
def nCfg : Config := ⟨1, 1, 1, 1, fun _ => 1, fun _ => 1, 0, 1, 1⟩

/-- C4: when the cap elapses without the max change falling below the
tolerance, the solver returns the distinct `nonConverged` status carrying
the last snapshot and the final max-delta, and never a converged status. -/
theorem kp_nonconvergence_reported (games : List Game) (cfg : Config)
    (roster : List Nat) (hK : 1 ≤ cfg.maxIter)
    (hdivAll : ∀ t, t < cfg.maxIter →
      findDegenerate games (iterTeams games roster)
        (iterSnap games cfg (initSnap cfg) t) = none)
    (hnever : ∀ t, t < cfg.maxIter →
      ¬ delta games cfg (iterTeams games roster) (initSnap cfg) t < cfg.eps) :
    solve games cfg roster
      = Except.ok (Status.nonConverged
          (delta games cfg (iterTeams games roster) (initSnap cfg)
            (cfg.maxIter - 1)),
          iterSnap games cfg (initSnap cfg) cfg.maxIter)
    ∧ ∀ n s, solve games cfg roster ≠ Except.ok (Status.converged n, s) := by
  have h1 : solve games cfg roster
      = Except.ok (Status.nonConverged
          (delta games cfg (iterTeams games roster) (initSnap cfg)
            (cfg.maxIter - 1)),
          iterSnap games cfg (initSnap cfg) cfg.maxIter) := by
    unfold solve
    exact solve_trace_nonConverged games cfg (iterTeams games roster)
      (initSnap cfg) cfg.maxIter hK hdivAll hnever
  refine ⟨h1, ?_⟩
  intro n s hcontra
  rw [h1] at hcontra
  simp at hcontra

/-- Witness for C4: zero tolerance and cap 1 on the one-game fixture. -/
theorem kp_nonconvergence_reported_witness :
    solve exGames nCfg [0, 1]
      = Except.ok (Status.nonConverged
          (delta exGames nCfg (iterTeams exGames [0, 1]) (initSnap nCfg) 0),
          iterSnap exGames nCfg (initSnap nCfg) 1) := by
  have hpos := iterSnap_pos exGames nCfg (initSnap nCfg)
    (by
      intro g hgm
      simp only [exGames, List.mem_singleton] at hgm
      subst hgm
      norm_num [exGame])
    (by norm_num [nCfg]) (by norm_num [nCfg]) (by norm_num [nCfg])
    (by norm_num [nCfg]) (fun j => by norm_num [nCfg])
    (fun j => by norm_num [nCfg]) (fun k => by norm_num [initSnap, nCfg])
  exact (kp_nonconvergence_reported exGames nCfg [0, 1] (by norm_num [nCfg])
    (fun t _ => findDegenerate_none_of_pos exGames _ _ (hpos t))
    (by
      intro t ht
      norm_num [nCfg] at ht
      have ht0 : t = 0 := by omega
      subst ht0
      simp [delta, iterSnap_succ, iterSnap_zero, step, maxDelta, teamDelta,
        nextO, nextD, oTerm, dTerm, gamesOf, scored, allowed, opponent,
        exGames, exGame, nCfg, initSnap, iterTeams])).1

/-- C5: a zero (or sign-changed) opponent divisor at some iteration makes
the whole run fail with the degenerate-divisor error naming the offending
team and iteration, and no per-team results are returned at all. -/
theorem kp_degenerate_divisor_aborts (games : List Game) (cfg : Config)
    (roster : List Nat) (τ j : Nat) (hτ : τ < cfg.maxIter)
    (hdiv : ∀ t, t < τ →
      findDegenerate games (iterTeams games roster)
        (iterSnap games cfg (initSnap cfg) t) = none)
    (hbefore : ∀ t, t < τ →
      ¬ delta games cfg (iterTeams games roster) (initSnap cfg) t < cfg.eps)
    (hdeg : findDegenerate games (iterTeams games roster)
        (iterSnap games cfg (initSnap cfg) τ) = some j) :
    solve games cfg roster = Except.error (SolveError.degenerateDivisor j τ)
    ∧ ∀ p, solve games cfg roster ≠ Except.ok p := by
  have h1 : solve games cfg roster
      = Except.error (SolveError.degenerateDivisor j τ) := by
    unfold solve
    exact solve_trace_degenerate games cfg (iterTeams games roster)
      (initSnap cfg) τ cfg.maxIter j hτ hdiv hbefore hdeg
  refine ⟨h1, ?_⟩
  intro p hcontra
  rw [h1] at hcontra
  exact Except.noConfusion hcontra

/-- A fixture configuration whose initial guess is zero, so every divisor
is degenerate from the start. -/
def zCfg : Config := ⟨1, 1, 1, 1, fun _ => 1, fun _ => 1, 10, 3, 0⟩

/-- Witness for C5: with a zero initial guess the very first iteration
aborts, naming team 0 and iteration 0. -/
theorem kp_degenerate_divisor_aborts_witness :
    solve exGames zCfg [0, 1]
      = Except.error (SolveError.degenerateDivisor 0 0) :=
  (kp_degenerate_divisor_aborts exGames zCfg [0, 1] 0 0 (by norm_num [zCfg])
    (fun t ht => absurd ht (Nat.not_lt_zero t))
    (fun t ht => absurd ht (Nat.not_lt_zero t))
    (by decide)).1

/-- Modelled from the spec: the solver loop as a step relation, used to
state that a run is a pure function of its inputs — any two executions
from the same inputs produce the same result. -/
inductive LoopRel (games : List Game) (cfg : Config) (teams : List Nat) :
    Nat → Nat → Snap → Except SolveError (Status × Snap) → Prop where
  | fuelZero (t : Nat) (s : Snap) :
      LoopRel games cfg teams 0 t s (Except.ok (Status.nonConverged 0, s))
  | degenerate (fuel t : Nat) (s : Snap) (j : Nat)
      (h : findDegenerate games teams s = some j) :
      LoopRel games cfg teams (fuel + 1) t s
        (Except.error (SolveError.degenerateDivisor j t))
  | stop (fuel t : Nat) (s : Snap)
      (h : findDegenerate games teams s = none)
      (hd : maxDelta teams s (step games cfg s) < cfg.eps) :
      LoopRel games cfg teams (fuel + 1) t s
        (Except.ok (Status.converged (t + 1), step games cfg s))
  | exhaust (t : Nat) (s : Snap)
      (h : findDegenerate games teams s = none)
      (hd : ¬ maxDelta teams s (step games cfg s) < cfg.eps) :
      LoopRel games cfg teams 1 t s
        (Except.ok (Status.nonConverged (maxDelta teams s (step games cfg s)),
          step games cfg s))
  | more (fuel t : Nat) (s : Snap) (r : Except SolveError (Status × Snap))
      (h : findDegenerate games teams s = none)
      (hd : ¬ maxDelta teams s (step games cfg s) < cfg.eps)
      (hfuel : fuel ≠ 0)
      (hrec : LoopRel games cfg teams fuel (t + 1) (step games cfg s) r) :
      LoopRel games cfg teams (fuel + 1) t s r

lemma loopRel_solveAux (games : List Game) (cfg : Config) (teams : List Nat) :
    ∀ fuel t s, LoopRel games cfg teams fuel t s (solveAux games cfg teams fuel t s) := by
  intro fuel
  induction fuel with
  | zero => intro t s; exact LoopRel.fuelZero t s
  | succ fuel ih =>
    intro t s
    cases hfd : findDegenerate games teams s with
    | some j =>
      rw [solveAux_succ_degenerate games cfg teams fuel t s j hfd]
      exact LoopRel.degenerate fuel t s j hfd
    | none =>
      by_cases hd : maxDelta teams s (step games cfg s) < cfg.eps
      · rw [solveAux_succ_converged games cfg teams fuel t s hfd hd]
        exact LoopRel.stop fuel t s hfd hd
      · by_cases hf : fuel = 0
        · subst hf
          rw [solveAux_succ_exhaust games cfg teams t s hfd hd]
          exact LoopRel.exhaust t s hfd hd
        · rw [solveAux_succ_next games cfg teams fuel t s hfd hd hf]
          exact LoopRel.more fuel t s _ hfd hd hf (ih (t + 1) (step games cfg s))

/-- C7: the solver loop is deterministic — two runs of the relation from
identical games, configuration, team list, fuel and starting snapshot
produce identical results (status and every team's final pair). -/
theorem kp_loop_deterministic (games : List Game) (cfg : Config)
    (teams : List Nat) (fuel t : Nat) (s : Snap)
    (r1 r2 : Except SolveError (Status × Snap))
    (h1 : LoopRel games cfg teams fuel t s r1)
    (h2 : LoopRel games cfg teams fuel t s r2) : r1 = r2 := by
  induction h1 generalizing r2 with
  | fuelZero t s =>
    cases h2 with
    | fuelZero => rfl
  | degenerate fuel t s j h =>
    cases h2 with
    | degenerate fuel2 t2 s2 j2 h2' =>
      rw [h] at h2'
      injection h2' with hj
      rw [hj]
    | stop _ _ _ h2' _ => rw [h] at h2'; exact Option.noConfusion h2'
    | exhaust _ _ h2' _ => rw [h] at h2'; exact Option.noConfusion h2'
    | more _ _ _ _ h2' _ _ _ => rw [h] at h2'; exact Option.noConfusion h2'
  | stop fuel t s h hd =>
    cases h2 with
    | degenerate _ _ _ j2 h2' => rw [h] at h2'; exact Option.noConfusion h2'
    | stop => rfl
    | exhaust _ _ _ hd2 => exact absurd hd hd2
    | more _ _ _ _ _ hd2 _ _ => exact absurd hd hd2
  | exhaust t s h hd =>
    cases h2 with
    | degenerate _ _ _ j2 h2' => rw [h] at h2'; exact Option.noConfusion h2'
    | stop _ _ _ _ hd2 => exact absurd hd2 hd
    | exhaust => rfl
    | more _ _ _ _ _ _ hfuel2 _ => exact absurd rfl hfuel2
  | more fuel t s r h hd hfuel hrec ih =>
    cases h2 with
    | degenerate _ _ _ j2 h2' => rw [h] at h2'; exact Option.noConfusion h2'
    | stop _ _ _ _ hd2 => exact absurd hd2 hd
    | exhaust _ _ _ hd2 =>
      exact absurd rfl hfuel
    | more _ _ _ r2 _ _ _ hrec2 => exact ih r2 hrec2

/-- Witness for C7: two executions of the loop relation on the one-game
fixture, both obtained from the loop function, agree. -/
theorem kp_loop_deterministic_witness :
    solve exGames pCfg [0, 1] = solve exGames pCfg [0, 1] :=
  kp_loop_deterministic exGames pCfg (iterTeams exGames [0, 1])
    pCfg.maxIter 0 (initSnap pCfg) _ _
    (loopRel_solveAux exGames pCfg (iterTeams exGames [0, 1]) pCfg.maxIter 0
      (initSnap pCfg))
    (loopRel_solveAux exGames pCfg (iterTeams exGames [0, 1]) pCfg.maxIter 0
      (initSnap pCfg))

/-- A fixture configuration with a real home-court factor `loc = 2` and no
preseason term, all other constants one. -/
def locCfg : Config := ⟨1, 1, 2, 0, fun _ => 1, fun _ => 1, 10, 3, 1⟩

/-- C6 (counterexample to the claimed convention): in the notebook's final
formulas the offensive update multiplies every game by `1/loc` and the
defensive update by `loc`, regardless of venue.  With `loc = 2` and all
ppp values, weights and opponent ratings equal to one, both the home team
(team 0) and the away team (team 1) get offensive value `1/2`; the away
team does not get the factor `loc = 2` the claim calls for, and
symmetrically both get defensive value `2`. -/
theorem kp_loc_factor_uniform_at_failing_input :
    nextO exGames locCfg (fun _ => 1) 0 = 1 / 2
    ∧ nextO exGames locCfg (fun _ => 1) 1 = 1 / 2
    ∧ nextO exGames locCfg (fun _ => 1) 1 ≠ 2
    ∧ nextD exGames locCfg (fun _ => 1) 0 = 2
    ∧ nextD exGames locCfg (fun _ => 1) 1 = 2 := by
  refine ⟨?_, ?_, ?_, ?_, ?_⟩ <;>
    norm_num [nextO, nextD, oTerm, dTerm, gamesOf, scored, allowed, opponent,
      exGames, exGame, locCfg]

end Kenpom
